import Mathlib

/-!
# Verification of the cluster client and batcher client

Shallow embedding of `framework/wazuh/cluster/client.py`
(`AbstractClient`, `AbstractClientManager`) and
`framework/wazuh/core/batcher/client.py` (`BatcherClient`), together with
proofs of the behavioural properties claimed by the specification.

Byte strings of the Python code are modelled as `String`; Python's
`bytes.startswith` is `startswith` below, computed on the character lists.
The asynchronous loops are modelled as state-passing functions: each
`await self.send_request(...)` of the keepalive loop consumes the next
element of a trace of responses, and each `await asyncio.sleep(...)` is a
suspension point separating iterations.
-/

namespace WazuhClient

/-- Payloads and commands (`bytes` in the Python source). -/
abbrev Bytes := String

/-- Prefix test on character lists (second argument is the candidate
initial segment of the first). -/
def charsStartWith : List Char → List Char → Bool
  | _, [] => true
  | [], _ :: _ => false
  | c :: cs, p :: ps => p == c && charsStartWith cs ps

/-- Python's `s.startswith(p)`. -/
def startswith (s p : Bytes) : Bool := charsStartWith s.data p.data

/-- `result.startswith(b'Error')` — the failure test used by `client.py`
for handshake and keepalive responses. -/
def isError (b : Bytes) : Bool := startswith b "Error"

/-! ## `AbstractClient.process_request` / `echo_client` (client.py 75-89) -/

/-- `AbstractClient.echo_client`: reply to an `echo-m` request with the
payload unchanged under the `ok-c` tag. -/
def echo_client (data : Bytes) : Bytes × Bytes := ("ok-c", data)

/-- `AbstractClient.process_request`: dispatch `echo-m` to `echo_client`,
delegate every other command to the base handler (`super().process_request`
of `common.Handler`, supplied here as the function `base`). -/
def process_request (base : Bytes → Bytes → Bytes × Bytes)
    (command data : Bytes) : Bytes × Bytes :=
  if command = "echo-m" then echo_client data else base command data

/-! ## `AbstractClient` connection state (client.py 15-45) -/

/-- The per-connection flags of `AbstractClient` touched by the handshake:
`connected` (line 26) and whether `self.transport.close()` was called. -/
structure ClientState where
  connected : Bool
  transportClosed : Bool
  deriving DecidableEq, Repr

/-- `AbstractClient.__init__` (line 26): `self.connected = False`, transport
still open. -/
def initClient : ClientState := { connected := false, transportClosed := false }

/-- The `connection_result` callback that `connection_made` installs on the
`hello` request's future (lines 34-41): an `Error`-prefixed response closes
the transport, any other response sets `connected = True`. -/
def connection_result (s : ClientState) (response : Bytes) : ClientState :=
  if isError response then { s with transportClosed := true }
  else { s with connected := true }

/-! ## `AbstractClient.client_echo` — the keepalive loop (client.py 91-102) -/

/-- State observed and mutated by one `client_echo` coroutine:
`n_attemps` is the local failed-keepalive counter of the loop, `connected`
the handshake flag, `conLostDone` the value of `self.on_con_lost.done()`,
`transportClosed` whether `self.transport.close()` has run, `closeCalls`
how many times it ran, and `sends` how many `echo-c` requests were issued. -/
structure EchoState where
  n_attemps : Nat
  connected : Bool
  conLostDone : Bool
  transportClosed : Bool
  closeCalls : Nat
  sends : Nat
  deriving DecidableEq, Repr

/-- One iteration of the `while not self.on_con_lost.done()` body of
`client_echo`: when connected, send `echo-c`/`keepalive` (answered by
`result`); an `Error`-prefixed result increments `n_attemps`, and reaching
three failures calls `self.transport.close()`. Nothing resets `n_attemps`.
Closing the transport makes `connection_lost` fire and set `on_con_lost`
before the loop condition is checked again, so a close also sets
`conLostDone`. When not connected the body only sleeps. -/
def echoIteration (s : EchoState) (result : Bytes) : EchoState :=
  if s.conLostDone then s
  else if s.connected then
    let t := { s with sends := s.sends + 1 }
    if isError result then
      if 3 ≤ t.n_attemps + 1 then
        { t with n_attemps := t.n_attemps + 1, transportClosed := true,
                 closeCalls := t.closeCalls + 1, conLostDone := true }
      else { t with n_attemps := t.n_attemps + 1 }
    else t
  else s

/-- `client_echo` run against a trace of keepalive responses (the reply the
server would give at each iteration). -/
def client_echo (s : EchoState) : List Bytes → EchoState
  | [] => s
  | r :: rs => client_echo (echoIteration s r) rs

/-- The state of a `client_echo` task just after a successful handshake:
fresh counter (`n_attemps = 0` at line 92), connected, connection alive. -/
def initEcho : EchoState :=
  { n_attemps := 0, connected := true, conLostDone := false,
    transportClosed := false, closeCalls := 0, sends := 0 }

/-- A running keepalive-loop state with counter `k`, `c` close calls and
`n` sends so far: connected, connection alive, transport open.
`initEcho = mkEchoState 0 0 0`. -/
def mkEchoState (k c n : Nat) : EchoState :=
  { n_attemps := k, connected := true, conLostDone := false,
    transportClosed := false, closeCalls := c, sends := n }

/-- Number of `Error`-prefixed responses in a trace. -/
def countErrors (trace : List Bytes) : Nat :=
  (trace.filter (fun r => isError r)).length

/-- The specification's reading of the 3-strikes rule: some window of three
consecutive keepalive responses all failed. -/
def threeConsecutiveErrors : List Bytes → Bool
  | r1 :: r2 :: r3 :: rs =>
      (isError r1 && isError r2 && isError r3) ||
        threeConsecutiveErrors (r2 :: r3 :: rs)
  | _ => false

/-! ## `AbstractClient.connection_lost` (client.py 47-60) -/

/-- The `on_con_lost` future of a connection. -/
structure FutureState where
  done : Bool
  result : Option Bool
  deriving DecidableEq, Repr

/-- A task on the shared event loop, tagged with the connection it belongs
to (`asyncio.Task.all_tasks()` returns every task of the loop, whichever
connection created it). -/
structure LoopTask where
  connId : Nat
  cancelled : Bool
  deriving DecidableEq, Repr

/-- `AbstractClient.connection_lost`: set `on_con_lost` to `True` if it is
not yet done, then call `task.cancel()` on every task in
`asyncio.Task.all_tasks()` — that is, on every task of the event loop. -/
def connection_lost (onConLost : FutureState) (allTasks : List LoopTask) :
    FutureState × List LoopTask :=
  ((if onConLost.done then onConLost else { done := true, result := some true }),
   allTasks.map (fun t => { t with cancelled := true }))

/-! ## `AbstractClientManager.start` (client.py 167-211) -/

/-- In `start`, `on_con_lost = loop.create_future()` runs once, at line 173,
before the `while True` reconnect loop; the protocol factory of every
iteration captures this same future object. Session `i + 1` therefore
starts with the future exactly as session `i` left it when
`connection_lost` fired at the end of that session; only session 0 sees a
fresh future. -/
def futureAtSessionStart : Nat → FutureState
  | 0 => { done := false, result := none }
  | i + 1 => (connection_lost (futureAtSessionStart i) []).1

/-- The state of the `client_echo` task of a session whose shared
`on_con_lost` future is `f` and whose handshake left `connected = b`. -/
def sessionEchoState (f : FutureState) (b : Bool) : EchoState :=
  { n_attemps := 0, connected := b, conLostDone := f.done,
    transportClosed := false, closeCalls := 0, sends := 0 }

/-- Outcome of one `loop.create_connection` call in `start` (lines 178-190):
success, `ConnectionRefusedError`, or any other `OSError`. -/
inductive ConnectOutcome
  | success
  | refused
  | osError (msg : String)
  deriving DecidableEq, Repr

/-- What one pass of the `while True` loop in `start` does with the connect
outcome: proceed to running the session's tasks, sleep a fixed delay and
`continue`, or let the exception escape `start`. -/
inductive LoopAction
  | runSession
  | sleepRetry (delay : Nat)
  | propagate
  deriving DecidableEq, Repr

/-- The `try/except` around `loop.create_connection` (lines 177-190):
`ConnectionRefusedError` and `OSError` are caught and logged and turn into
`await asyncio.sleep(10)` followed by `continue`. -/
def handleConnectAttempt : ConnectOutcome → LoopAction
  | .success => .runSession
  | .refused => .sleepRetry 10
  | .osError _ => .sleepRetry 10

/-- The "main" task chosen after a successful connect (lines 192-201). -/
inductive MainTask
  | performanceTest (testSize : Nat)
  | concurrencyTest (nMsgs : Nat)
  | sendFile (filename : String)
  | sendString (stringSize : Nat)
  | echoLoop
  deriving DecidableEq, Repr

/-- The `if/elif` chain of lines 192-201. Python truthiness: an `int`
option counts as configured exactly when nonzero, the `file` path exactly
when non-empty. -/
def selectMainTask (performance_test concurrency_test : Nat)
    (file : String) (string : Nat) : MainTask :=
  if performance_test ≠ 0 then .performanceTest performance_test
  else if concurrency_test ≠ 0 then .concurrencyTest concurrency_test
  else if file ≠ "" then .sendFile file
  else if string ≠ 0 then .sendString string
  else .echoLoop

/-- A task handed to `asyncio.gather` at line 206. -/
inductive SessionTask
  | awaitConLost
  | keepalive
  | main (t : MainTask)
  deriving DecidableEq, Repr

/-- Whether a gathered task is the selected "main" task. -/
def isMainTask : SessionTask → Bool
  | .main _ => true
  | _ => false

/-- `asyncio.gather(on_con_lost, protocol.client_echo(), task(*task_args))`
(line 206): the awaited future, the keepalive loop, and the one selected
main task, all run concurrently. -/
def gatheredTasks (performance_test concurrency_test : Nat)
    (file : String) (string : Nat) : List SessionTask :=
  [SessionTask.awaitConLost, SessionTask.keepalive,
   SessionTask.main (selectMainTask performance_test concurrency_test file string)]

end WazuhClient

namespace WazuhBatcher

/-!
## `BatcherClient` (framework/wazuh/core/batcher/client.py)

`BatcherClient` routes events through a `MuxDemuxQueue`. The module
`mux_demux.py` defining that queue is not among the sampled sources, so the
queue and its three operations are modelled from the spec, which describes
a send-side (mux) queue of `(id, event)` pairs and a response-side (demux)
store keyed by correlation id. UUIDs are modelled as an id supply `next`
that never hands out the same value twice.
-/

/-- Correlation id (`uuid.UUID` in the source). -/
abbrev Uid := Nat

/-- An event submitted by a caller. -/
abbrev Event := String

/-- A response dictionary. -/
abbrev Response := String

/-- Modelled from the spec: `MuxDemuxQueue` (`mux_demux.py` is missing from
the sampled sources) — "a shared structure routing outbound events and
their eventual responses by correlation id": a send-side queue of
`(id, event)` pairs and a response-side store keyed by id. -/
structure MuxDemuxQueue where
  mux : List (Uid × Event)
  demux : List (Uid × Response)
  deriving DecidableEq, Repr

/-- Modelled from the spec: `send_to_mux` — "enqueues `(id, event)` into the
shared send-side queue, returns the id immediately" (`send_event` returns
its result directly). -/
def send_to_mux (q : MuxDemuxQueue) (uid : Uid) (event : Event) :
    Uid × MuxDemuxQueue :=
  (uid, { q with mux := q.mux ++ [(uid, event)] })

/-- Modelled from the spec: `is_response_pending uid` is `true` while no
entry for `uid` is present in the response-side store. -/
def is_response_pending (q : MuxDemuxQueue) (uid : Uid) : Bool :=
  !(q.demux.any (fun p => p.1 == uid))

/-- Modelled from the spec: `receive_from_demux uid` — once "an entry for
`id` is present", it "removes and returns it". -/
def receive_from_demux (q : MuxDemuxQueue) (uid : Uid) :
    Option Response × MuxDemuxQueue :=
  match q.demux.find? (fun p => p.1 == uid) with
  | some p => (some p.2, { q with demux := q.demux.filter (fun r => r.1 != uid) })
  | none => (none, q)

/-- `BatcherClient.__init__`: stores the queue handle and the poll interval
`frequency_of_wait` (s in time units, modelled as a rational). -/
structure BatcherClient where
  frequency_of_wait : ℚ
  deriving DecidableEq, Repr

/-- The default `frequency_of_wait = 0.1`. -/
def defaultBatcherClient : BatcherClient := { frequency_of_wait := 1 / 10 }

/-- What one pass of `get_response`'s `while True` body does. -/
inductive PollAction
  | sleepFor (d : ℚ)
  | returnNow (r : Option Response) (q2 : MuxDemuxQueue)
  deriving DecidableEq, Repr

/-- One pass of the body of `BatcherClient.get_response`: while the
response is pending the coroutine sleeps `frequency_of_wait`; once it is
not pending the entry is removed from the demux store and returned. -/
def get_response_action (c : BatcherClient) (q : MuxDemuxQueue) (uid : Uid) :
    PollAction :=
  if is_response_pending q uid then PollAction.sleepFor c.frequency_of_wait
  else PollAction.returnNow (receive_from_demux q uid).1 (receive_from_demux q uid).2

/-- `BatcherClient.get_response` run for at most `fuel` passes of its
polling loop; `none` means the loop was still polling after `fuel` passes.
The queue does not change between polls here: the drain process that would
populate the demux side is an external collaborator outside this model. -/
def get_response (q : MuxDemuxQueue) (uid : Uid) : Nat → Option (Option Response × MuxDemuxQueue)
  | 0 => none
  | fuel + 1 =>
      if is_response_pending q uid then get_response q uid fuel
      else some (receive_from_demux q uid)

/-- `BatcherClient.send_event`: draw a fresh UUID (`uuid.uuid4()`, modelled
as the supply counter `next`), enqueue via `send_to_mux`, and return its
result; also returns the advanced supply. -/
def send_event (next : Uid) (q : MuxDemuxQueue) (event : Event) :
    Uid × MuxDemuxQueue × Uid :=
  let assigned_uid := next
  let r := send_to_mux q assigned_uid event
  (r.1, r.2, next + 1)

/-- The correlation ids present anywhere in the queue. -/
def usedIds (q : MuxDemuxQueue) : List Uid :=
  q.mux.map Prod.fst ++ q.demux.map Prod.fst

end WazuhBatcher

namespace WazuhClient

/-! ## Theorems -/

/-- Once `on_con_lost` is done, the `client_echo` loop performs no further
iteration: the state is a fixed point. -/
theorem client_echo_of_done (trace : List Bytes) :
    ∀ s : EchoState, s.conLostDone = true → client_echo s trace = s := by
  induction trace with
  | nil => intro s _; rfl
  | cons r rs ih =>
      intro s h
      show client_echo (echoIteration s r) rs = s
      rw [echoIteration, if_pos h]
      exact ih s h

/-- While `connected` is false, the `client_echo` loop only sleeps: the
state is a fixed point. -/
theorem client_echo_of_not_connected (trace : List Bytes) :
    ∀ s : EchoState, s.connected = false → client_echo s trace = s := by
  induction trace with
  | nil => intro s _; rfl
  | cons r rs ih =>
      intro s h
      show client_echo (echoIteration s r) rs = s
      by_cases hd : s.conLostDone = true
      · rw [echoIteration, if_pos hd]; exact ih s h
      · rw [echoIteration, if_neg hd, if_neg (by simp [h])]; exact ih s h

/-- C10: the keepalive loop never issues an `echo-c` request while the
client's `connected` flag is false: every iteration before the `hello`
handshake has succeeded (or after it has failed) only sleeps, sends
nothing, and leaves the whole state unchanged. -/
theorem C10_no_send_while_disconnected (s : EchoState) (trace : List Bytes)
    (h : s.connected = false) :
    (client_echo s trace).sends = s.sends ∧ client_echo s trace = s :=
  ⟨by rw [client_echo_of_not_connected trace s h],
   client_echo_of_not_connected trace s h⟩

/-- Witness for C10: a disconnected client fed three would-be responses
sends nothing. -/
theorem C10_no_send_while_disconnected_witness :
    (client_echo { initEcho with connected := false }
        ["ok", "Error x", "ok"]).sends = 0 ∧
    client_echo { initEcho with connected := false } ["ok", "Error x", "ok"]
      = { initEcho with connected := false } :=
  C10_no_send_while_disconnected { initEcho with connected := false }
    ["ok", "Error x", "ok"] rfl

/-- Splitting `countErrors` at the head of a trace. -/
theorem countErrors_cons (r : Bytes) (rs : List Bytes) :
    countErrors (r :: rs) = (if isError r then 1 else 0) + countErrors rs := by
  rw [countErrors, countErrors, List.filter_cons]
  cases h : isError r
  · simp [h]
  · simp [h]
    omega

/-- Characterization of the keepalive loop from a connected state with `k`
prior failures (`k < 3`): the transport ends up closed exactly when the
cumulative failure count `k + countErrors trace` reaches three — successes
never reset the counter — and `transport.close()` runs once in that case. -/
theorem client_echo_char (trace : List Bytes) :
    ∀ k c n : Nat, k < 3 →
      ((client_echo (mkEchoState k c n) trace).transportClosed = true ↔
          3 ≤ k + countErrors trace) ∧
      (client_echo (mkEchoState k c n) trace).closeCalls =
          c + (if 3 ≤ k + countErrors trace then 1 else 0) := by
  induction trace with
  | nil =>
      intro k c n hk
      constructor
      · simp [client_echo, mkEchoState, countErrors]
        omega
      · simp [client_echo, mkEchoState, countErrors]
        omega
  | cons r rs ih =>
      intro k c n hk
      have hstep : client_echo (mkEchoState k c n) (r :: rs)
          = client_echo (echoIteration (mkEchoState k c n) r) rs := rfl
      by_cases he : isError r = true
      · by_cases h3 : 3 ≤ k + 1
        · have hst : echoIteration (mkEchoState k c n) r =
              { n_attemps := k + 1, connected := true, conLostDone := true,
                transportClosed := true, closeCalls := c + 1, sends := n + 1 } := by
            simp [echoIteration, mkEchoState, he, h3]
          rw [hstep, hst, client_echo_of_done rs _ rfl, countErrors_cons, if_pos he]
          exact ⟨by simpa using by omega, by rw [if_pos (by omega)]⟩
        · have hst : echoIteration (mkEchoState k c n) r = mkEchoState (k + 1) c (n + 1) := by
            simp [echoIteration, mkEchoState, he, h3]
          rw [hstep, hst, countErrors_cons, if_pos he]
          have h := ih (k + 1) c (n + 1) (by omega)
          constructor
          · rw [h.1]; omega
          · rw [h.2]
            by_cases hP : 3 ≤ (k + 1) + countErrors rs
            · rw [if_pos hP, if_pos (by omega)]
            · rw [if_neg hP, if_neg (by omega)]
      · have he2 : isError r = false := by simpa using he
        have hst : echoIteration (mkEchoState k c n) r = mkEchoState k c (n + 1) := by
          simp [echoIteration, mkEchoState, he2]
        rw [hstep, hst, countErrors_cons, if_neg (by simp [he2])]
        simpa using ih k c (n + 1) hk

/-- C1 (counterexample to the claim as stated): the trace
`[Error, Error, ok, Error]` contains no three consecutive failures — the
third failure is separated from the first two by a success — yet the code
closes the transport, because `client_echo` never resets `n_attemps`. -/
theorem C1_counterexample :
    threeConsecutiveErrors ["Error a", "Error b", "ok", "Error c"] = false ∧
    (client_echo initEcho ["Error a", "Error b", "ok", "Error c"]).transportClosed
      = true := by
  decide

/-- C1 (amended): the keepalive loop closes the transport exactly when the
cumulative number of failed `echo-c` round trips reaches three — the
failure counter is never reset by a success — and, because closing fires
`connection_lost` which completes `on_con_lost` and ends the loop,
`transport.close()` is called at most once. -/
theorem C1_keepalive_three_failures (trace : List Bytes) :
    ((client_echo initEcho trace).transportClosed = true ↔
        3 ≤ countErrors trace) ∧
    (client_echo initEcho trace).closeCalls ≤ 1 := by
  have h := client_echo_char trace 0 0 0 (by omega)
  have hinit : initEcho = mkEchoState 0 0 0 := rfl
  rw [hinit]
  refine ⟨by rw [h.1]; omega, ?_⟩
  rw [h.2]
  split <;> omega

/-- C9: For every payload `data`, `AbstractClient.process_request` answers
an `echo-m` request with `(ok-c, data)` — the payload echoed back unchanged
under the `ok-c` tag — and delegates every other command tag to the base
handler's `process_request`. -/
theorem C9_process_request_echo (base : Bytes → Bytes → Bytes × Bytes)
    (command data : Bytes) :
    process_request base "echo-m" data = ("ok-c", data) ∧
    (command ≠ "echo-m" → process_request base command data = base command data) := by
  constructor
  · simp [process_request, echo_client]
  · intro h
    simp [process_request, h]

/-- Witness for C9 at concrete inputs: `echo-m` is answered with
`(ok-c, payload)`, and the base handler is applied for the command `hello`. -/
theorem C9_process_request_echo_witness :
    process_request (fun c d => (c, d)) "echo-m" "payload" = ("ok-c", "payload") ∧
    process_request (fun c d => (c, d)) "hello" "nodeA" = ("hello", "nodeA") :=
  ⟨(C9_process_request_echo (fun c d => (c, d)) "hello" "payload").1,
   (C9_process_request_echo (fun c d => (c, d)) "hello" "nodeA").2 (by decide)⟩

/-- C4: `connected` starts `false` and becomes `true` exactly when the
`hello` handshake response does not start with `Error`; on an `Error`
response the transport is closed and `connected` stays `false`.
(`connection_result` is the only write to `connected` in `client.py`.) -/
theorem C4_connected_handshake (response : Bytes) :
    initClient.connected = false ∧
    (connection_result initClient response).connected = !(isError response) ∧
    (connection_result initClient response).transportClosed = isError response := by
  refine ⟨rfl, ?_, ?_⟩ <;>
    · unfold connection_result initClient
      cases h : isError response <;> simp [h]

/-- C3 (counterexample to the claim as stated): `connection_lost` for the
connection with id 1 iterates over `asyncio.Task.all_tasks()` — every task
of the event loop — so the task belonging to the unrelated connection 2 is
cancelled as well, contradicting "no tasks belonging to other connections
on the same loop are cancelled". -/
theorem C3_counterexample :
    (connection_lost { done := false, result := none }
        [{ connId := 1, cancelled := false }, { connId := 2, cancelled := false }]).2
      = [{ connId := 1, cancelled := true }, { connId := 2, cancelled := true }] := by
  decide

/-- C3 (amended): when the connection is lost, the `on_con_lost` future
ends up done (set to `True` if it was not already done) and every task on
the event loop is cancelled — in particular every task scoped to this
connection, so no caller awaiting `send_request` is left suspended — but
the cancellation sweep is loop-wide, not scoped to the connection. -/
theorem C3_connection_lost_cancels_all (f : FutureState) (ts : List LoopTask) :
    (connection_lost f ts).1.done = true ∧
    (connection_lost f ts).2.all (fun t => t.cancelled) = true ∧
    (connection_lost f ts).2.map (fun t => t.connId) = ts.map (fun t => t.connId) := by
  refine ⟨?_, ?_, ?_⟩
  · cases h : f.done <;> simp [connection_lost, h]
  · simp [connection_lost, List.all_eq_true]
  · simp [connection_lost, List.map_map]

/-- C2: the per-connection `on_con_lost` future is created once, before the
reconnect loop, not afresh per iteration: session 0 starts with a fresh
future but session 1 starts with the future already completed by session
0's `connection_lost`. Consequently, whatever the handshake outcome `b` of
the new session and whatever responses the server would give, the new
session's `client_echo` loop observes the previous session's
connection-lost result, exits immediately and sends nothing. -/
theorem C2_on_con_lost_shared_across_sessions :
    (futureAtSessionStart 0).done = false ∧
    (futureAtSessionStart 1).done = true ∧
    ∀ (b : Bool) (trace : List Bytes),
      client_echo (sessionEchoState (futureAtSessionStart 1) b) trace
        = sessionEchoState (futureAtSessionStart 1) b ∧
      (client_echo (sessionEchoState (futureAtSessionStart 1) b) trace).sends = 0 := by
  refine ⟨by decide, by decide, ?_⟩
  intro b trace
  have hdone : (sessionEchoState (futureAtSessionStart 1) b).conLostDone = true := by
    simp [sessionEchoState, futureAtSessionStart, connection_lost]
  have h := client_echo_of_done trace _ hdone
  exact ⟨h, by rw [h]; rfl⟩

/-- C5: every `ConnectionRefusedError` or `OSError` raised while connecting
is caught inside `start`: it never escapes the loop, and it is followed by
a fixed 10-second sleep before the next attempt; as long as attempts keep
failing, every iteration performs the same fixed-delay retry. -/
theorem C5_connect_errors_retry (o : ConnectOutcome)
    (outcomes : Nat → ConnectOutcome) (hfail : ∀ n, outcomes n ≠ .success) :
    (o ≠ .success → handleConnectAttempt o = .sleepRetry 10) ∧
    handleConnectAttempt o ≠ .propagate ∧
    (∀ n, handleConnectAttempt (outcomes n) = .sleepRetry 10) := by
  refine ⟨?_, ?_, ?_⟩
  · intro h
    cases o with
    | success => exact absurd rfl h
    | refused => rfl
    | osError m => rfl
  · cases o <;> simp [handleConnectAttempt]
  · intro n
    have hn := hfail n
    cases h : outcomes n with
    | success => rw [h] at hn; exact absurd rfl hn
    | refused => rfl
    | osError m => rfl

/-- Witness for C5: a refused connection and an OS-level reset both turn
into a 10-second retry, and a loop of refusals retries at attempt 7. -/
theorem C5_connect_errors_retry_witness :
    handleConnectAttempt ConnectOutcome.refused = LoopAction.sleepRetry 10 ∧
    handleConnectAttempt (ConnectOutcome.osError "connection reset") ≠
      LoopAction.propagate ∧
    handleConnectAttempt ((fun _ => ConnectOutcome.refused) 7) =
      LoopAction.sleepRetry 10 :=
  ⟨(C5_connect_errors_retry ConnectOutcome.refused (fun _ => ConnectOutcome.refused)
      (fun _ => (by decide : ConnectOutcome.refused ≠ ConnectOutcome.success))).1 (by decide),
   (C5_connect_errors_retry (ConnectOutcome.osError "connection reset")
      (fun _ => ConnectOutcome.refused) (fun _ => (by decide : ConnectOutcome.refused ≠ ConnectOutcome.success))).2.1,
   (C5_connect_errors_retry ConnectOutcome.refused (fun _ => ConnectOutcome.refused)
      (fun _ => (by decide : ConnectOutcome.refused ≠ ConnectOutcome.success))).2.2 7⟩

/-- C8: after a successful connect the gathered tasks contain the keepalive
echo loop and exactly one main task, and the main task is selected by the
fixed priority performance test, then concurrency test, then file transfer,
then string test, with the echo loop as default. -/
theorem C8_main_task_selection (p c : Nat) (f : String) (s : Nat) :
    ((gatheredTasks p c f s).filter isMainTask).length = 1 ∧
    SessionTask.keepalive ∈ gatheredTasks p c f s ∧
    (p ≠ 0 → selectMainTask p c f s = MainTask.performanceTest p) ∧
    (p = 0 → c ≠ 0 → selectMainTask p c f s = MainTask.concurrencyTest c) ∧
    (p = 0 → c = 0 → f ≠ "" → selectMainTask p c f s = MainTask.sendFile f) ∧
    (p = 0 → c = 0 → f = "" → s ≠ 0 → selectMainTask p c f s = MainTask.sendString s) ∧
    (p = 0 → c = 0 → f = "" → s = 0 → selectMainTask p c f s = MainTask.echoLoop) := by
  refine ⟨?_, ?_, ?_, ?_, ?_, ?_, ?_⟩
  · simp [gatheredTasks, List.filter, isMainTask]
  · simp [gatheredTasks]
  · intro h1
    simp [selectMainTask, h1]
  · intro h1 h2
    simp [selectMainTask, h1, h2]
  · intro h1 h2 h3
    simp [selectMainTask, h1, h2, h3]
  · intro h1 h2 h3 h4
    simp [selectMainTask, h1, h2, h3, h4]
  · intro h1 h2 h3 h4
    simp [selectMainTask, h1, h2, h3, h4]

/-- Witness for C8: each branch of the priority chain at a concrete
configuration, and the keepalive present in the gathered tasks. -/
theorem C8_main_task_selection_witness :
    selectMainTask 7 5 "f.txt" 3 = MainTask.performanceTest 7 ∧
    selectMainTask 0 5 "f.txt" 3 = MainTask.concurrencyTest 5 ∧
    selectMainTask 0 0 "f.txt" 3 = MainTask.sendFile "f.txt" ∧
    selectMainTask 0 0 "" 3 = MainTask.sendString 3 ∧
    selectMainTask 0 0 "" 0 = MainTask.echoLoop ∧
    SessionTask.keepalive ∈ gatheredTasks 0 0 "" 0 ∧
    ((gatheredTasks 7 5 "f.txt" 3).filter isMainTask).length = 1 :=
  ⟨(C8_main_task_selection 7 5 "f.txt" 3).2.2.1 (by decide),
   (C8_main_task_selection 0 5 "f.txt" 3).2.2.2.1 rfl (by decide),
   (C8_main_task_selection 0 0 "f.txt" 3).2.2.2.2.1 rfl rfl (by decide),
   (C8_main_task_selection 0 0 "" 3).2.2.2.2.2.1 rfl rfl rfl (by decide),
   (C8_main_task_selection 0 0 "" 0).2.2.2.2.2.2 rfl rfl rfl rfl,
   (C8_main_task_selection 0 0 "" 0).2.1,
   (C8_main_task_selection 7 5 "f.txt" 3).1⟩

end WazuhClient

namespace WazuhBatcher

/-- While the response for `uid` is pending and nothing external populates
the store, the polling loop of `get_response` never returns. -/
theorem get_response_none_of_pending (q : MuxDemuxQueue) (uid : Uid)
    (h : is_response_pending q uid = true) :
    ∀ fuel, get_response q uid fuel = none := by
  intro fuel
  induction fuel with
  | zero => rfl
  | succ n ih =>
      rw [get_response, if_pos h]
      exact ih

/-- If the store holds an entry for `uid`, the response is not pending. -/
theorem not_pending_of_find (q : MuxDemuxQueue) (uid : Uid) (p : Uid × Response)
    (h : q.demux.find? (fun r => r.1 == uid) = some p) :
    is_response_pending q uid = false := by
  have hmem : p ∈ q.demux := List.mem_of_find?_eq_some h
  have hp := (List.find?_eq_some.mp h).1
  have hany : q.demux.any (fun r => r.1 == uid) = true :=
    List.any_eq_true.mpr ⟨p, hmem, hp⟩
  simp [is_response_pending, hany]

/-- After `receive_from_demux` removed the entry for `uid`, the response for
`uid` is pending again: the demux store no longer holds it. -/
theorem pending_after_receive (q : MuxDemuxQueue) (uid : Uid) (p : Uid × Response)
    (h : q.demux.find? (fun r => r.1 == uid) = some p) :
    is_response_pending (receive_from_demux q uid).2 uid = true := by
  rw [receive_from_demux, h]
  simp [is_response_pending, List.any_eq_true, List.mem_filter]

/-- C6: `get_response uid` sleeps `frequency_of_wait` (default `0.1`) on
every pass while the response for `uid` is pending — and, absent an
external producer, never returns; once an entry `(uid, v)` is in the demux
store, the call removes it and returns it, after which the entry is gone
and a second `get_response` for the same `uid` finds it pending forever:
the value is retrievable exactly once. -/
theorem C6_get_response_consumes (c : BatcherClient) (q : MuxDemuxQueue)
    (uid : Uid) (v : Response) :
    (is_response_pending q uid = true →
       get_response_action c q uid = PollAction.sleepFor c.frequency_of_wait ∧
       ∀ fuel, get_response q uid fuel = none) ∧
    (q.demux.find? (fun r => r.1 == uid) = some (uid, v) →
       (∀ fuel, get_response q uid (fuel + 1) = some (receive_from_demux q uid)) ∧
       (receive_from_demux q uid).1 = some v ∧
       is_response_pending (receive_from_demux q uid).2 uid = true ∧
       (∀ fuel, get_response (receive_from_demux q uid).2 uid fuel = none)) ∧
    defaultBatcherClient.frequency_of_wait = 1 / 10 := by
  refine ⟨?_, ?_, rfl⟩
  · intro h
    exact ⟨by rw [get_response_action, if_pos h],
           get_response_none_of_pending q uid h⟩
  · intro h
    have hnp : is_response_pending q uid = false := not_pending_of_find q uid _ h
    have hpend : is_response_pending (receive_from_demux q uid).2 uid = true :=
      pending_after_receive q uid _ h
    refine ⟨?_, ?_, hpend, get_response_none_of_pending _ _ hpend⟩
    · intro fuel
      rw [get_response, if_neg (by simp [hnp])]
    · rw [receive_from_demux, h]

/-- Witness for C6: on an empty store polling returns nothing; with the
entry `(5, "resp")` present, one pass returns it, and four further passes
on the consumed store return nothing. -/
theorem C6_get_response_consumes_witness :
    get_response { mux := [], demux := [] } 5 3 = none ∧
    get_response { mux := [], demux := [(5, "resp")] } 5 1 =
      some (receive_from_demux { mux := [], demux := [(5, "resp")] } 5) ∧
    (receive_from_demux { mux := [], demux := [(5, "resp")] } 5).1 = some "resp" ∧
    get_response (receive_from_demux { mux := [], demux := [(5, "resp")] } 5).2 5 4
      = none :=
  ⟨((C6_get_response_consumes defaultBatcherClient { mux := [], demux := [] }
      5 "resp").1 (by decide)).2 3,
   (((C6_get_response_consumes defaultBatcherClient
      { mux := [], demux := [(5, "resp")] } 5 "resp").2.1 (by decide)).1 0),
   (((C6_get_response_consumes defaultBatcherClient
      { mux := [], demux := [(5, "resp")] } 5 "resp").2.1 (by decide)).2.1),
   (((C6_get_response_consumes defaultBatcherClient
      { mux := [], demux := [(5, "resp")] } 5 "resp").2.1 (by decide)).2.2.2 4)⟩

/-- C7: `send_event` draws a fresh id — one never handed out before, so
distinct from every id in the queue — enqueues `(id, event)` at the back of
the mux queue without touching the demux store, and returns that same id;
the advanced supply keeps every id in the queue below the next fresh one. -/
theorem C7_send_event_fresh (next : Uid) (q : MuxDemuxQueue) (event : Event)
    (hfresh : ∀ u ∈ usedIds q, u < next) :
    (send_event next q event).1 = next ∧
    (send_event next q event).1 ∉ usedIds q ∧
    (send_event next q event).2.1.mux = q.mux ++ [(next, event)] ∧
    (send_event next q event).2.1.demux = q.demux ∧
    (∀ u ∈ usedIds (send_event next q event).2.1, u < (send_event next q event).2.2) := by
  refine ⟨rfl, ?_, rfl, rfl, ?_⟩
  · intro hmem
    exact absurd (hfresh _ hmem) (Nat.lt_irrefl next)
  · have hids : usedIds (send_event next q event).2.1
        = q.mux.map Prod.fst ++ ([next] ++ q.demux.map Prod.fst) := by
      simp [usedIds, send_event, send_to_mux]
    intro u hu
    rw [hids] at hu
    show u < next + 1
    rcases List.mem_append.mp hu with h1 | h1
    · exact Nat.lt_succ_of_lt (hfresh u (List.mem_append.mpr (Or.inl h1)))
    · rcases List.mem_append.mp h1 with h2 | h2
      · rcases List.mem_singleton.mp h2 with rfl
        exact Nat.lt_succ_self _
      · exact Nat.lt_succ_of_lt (hfresh u (List.mem_append.mpr (Or.inr h2)))

/-- Witness for C7: with ids 0 and 1 in the queue and supply at 2, the
event is enqueued under the fresh id 2, which is returned to the caller. -/
theorem C7_send_event_fresh_witness :
    (send_event 2 { mux := [(0, "a")], demux := [(1, "b")] } "e").1 = 2 ∧
    (send_event 2 { mux := [(0, "a")], demux := [(1, "b")] } "e").1 ∉
      usedIds { mux := [(0, "a")], demux := [(1, "b")] } ∧
    (send_event 2 { mux := [(0, "a")], demux := [(1, "b")] } "e").2.1.mux
      = [(0, "a")] ++ [(2, "e")] ∧
    (send_event 2 { mux := [(0, "a")], demux := [(1, "b")] } "e").2.1.demux
      = [(1, "b")] :=
  ⟨(C7_send_event_fresh 2 { mux := [(0, "a")], demux := [(1, "b")] } "e"
      (by decide)).1,
   (C7_send_event_fresh 2 { mux := [(0, "a")], demux := [(1, "b")] } "e"
      (by decide)).2.1,
   (C7_send_event_fresh 2 { mux := [(0, "a")], demux := [(1, "b")] } "e"
      (by decide)).2.2.1,
   (C7_send_event_fresh 2 { mux := [(0, "a")], demux := [(1, "b")] } "e"
      (by decide)).2.2.2.1⟩

end WazuhBatcher
